import Mathlib

/-!
Shallow embedding of `src/gpu/GrPipeline.cpp`: the immutable GPU draw-pipeline
state object.  Collaborator types (`GrProcessorSet`, `GrAppliedClip`,
`GrProcessorSet::Analysis`, `GrUserStencilSettings`, render target, transfer
processors) are declared in headers outside this translation unit; they are
modelled here as plain value structures exposing exactly the accessors the
source calls, with pointer identity rendered as an explicit id field.
External factory functions (`GrXPFactory::createXferProcessor`,
`GrPorterDuffXPFactory::CreateSrcOverXferProcessor`,
`GrPorterDuffXPFactory::CreateNoCoverageXP`) are opaque to this translation
unit and are therefore passed in as function parameters, so every theorem
quantifies over their behaviour.
-/

/-- Colors are 32-bit values; modelled as `Nat` (the pipeline never computes
with them, it only passes them through). -/
abbrev GrColor := Nat

/-- Input-coverage descriptor passed opaquely to transfer-processor creation. -/
abbrev GrCoverage := Nat

/-- Capability descriptor, passed opaquely into transfer-processor resolution. -/
abbrev GrCaps := Nat

/-- Blend-mode enum, passed opaquely to the no-coverage factory. -/
abbrev SkBlendMode := Nat

/-- A transfer (blend) processor.  `xpId` stands for the object identity
(pointer), `xpValue` for the parameters that `isEqual` compares. -/
structure GrXferProcessor where
  xpId : Nat
  xpValue : Nat
deriving DecidableEq, Repr

/-- Value equality on transfer processors (the virtual `isEqual`). -/
def GrXferProcessor.isEqual (a b : GrXferProcessor) : Bool :=
  decide (a.xpValue = b.xpValue)

/-- A fragment processor: `fpId` is object identity, `fpValue` the parameters
compared by the virtual `isEqual`, `textures` the texture ids its samplers
bind, in sampler order. -/
structure GrFragmentProcessor where
  fpId : Nat
  fpValue : Nat
  textures : List Nat
deriving DecidableEq, Repr

/-- Value equality on fragment processors (the virtual `isEqual`):
structural comparison of parameters, not identity. -/
def GrFragmentProcessor.isEqual (a b : GrFragmentProcessor) : Bool :=
  decide (a.fpValue = b.fpValue) && decide (a.textures = b.textures)

/-- A render target.  `rtId` is the pointer identity compared by `AreEqual`;
`mixedSampled` is the `isMixedSampled()` capability flag. -/
structure GrRenderTarget where
  rtId : Nat
  mixedSampled : Bool
deriving DecidableEq, Repr

/-- User stencil settings: drawn from a small shared table, compared by
identity (`ussId`).  `isDisabled` is tabulated on its boolean argument. -/
structure GrUserStencilSettings where
  ussId : Nat
  disabledWithoutStencilClip : Bool
  disabledWithStencilClip : Bool
deriving DecidableEq, Repr

/-- The query `GrUserStencilSettings::isDisabled(hasStencilClip)`. -/
def GrUserStencilSettings.isDisabled (s : GrUserStencilSettings)
    (hasStencilClip : Bool) : Bool :=
  if hasStencilClip then s.disabledWithStencilClip else s.disabledWithoutStencilClip

/-- The canonical "unused" singleton `GrUserStencilSettings::kUnused`:
disabled regardless of the stencil-clip bit; id 0 in the shared table. -/
def GrUserStencilSettings.kUnused : GrUserStencilSettings :=
  { ussId := 0, disabledWithoutStencilClip := true, disabledWithStencilClip := true }

/-- The draw-face enum. -/
inductive GrDrawFace where
  | both
  | ccw
  | cw
deriving DecidableEq, Repr

/-- The pipeline flag bits (`GrPipeline::Flags`), modelled as one boolean per
distinct bit of the mask. -/
structure GrPipelineFlags where
  hwAntialias : Bool := false
  snapVerticesToPixelCenters : Bool := false
  disableOutputConversionToSRGB : Bool := false
  allowSRGBInputs : Bool := false
  usesDistanceVectorField : Bool := false
  hasStencilClip : Bool := false
  stencilEnabled : Bool := false
deriving DecidableEq, Repr

/-- An applied clip: scissor state, window-rects state, the
`hasStencilClip()` query, and the optional clip-coverage fragment processor.
Scissor and window-rects states are opaque values; `0` is the
default-constructed (disabled) state. -/
structure GrAppliedClip where
  scissorState : Nat
  windowRectsState : Nat
  hasStencilClip : Bool
  clipCoverageFragmentProcessor : Option GrFragmentProcessor
deriving DecidableEq, Repr

/-- The custom transfer-processor factory (`GrXPFactory`).  Its
`createXferProcessor(color, coverage, hasMixedSamples, caps)` is external
code; per its contract it returns a non-null processor, so it is modelled as
a total function. -/
structure GrXPFactory where
  createXferProcessor : GrColor → GrCoverage → Bool → GrCaps → GrXferProcessor

/-- The processor set supplied by the builder: ordered color and coverage
fragment processors, the nullable transfer-processor factory, and three
boolean property queries. -/
structure GrProcessorSet where
  colorFragmentProcessors : List GrFragmentProcessor
  coverageFragmentProcessors : List GrFragmentProcessor
  xpFactory : Option GrXPFactory
  usesDistanceVectorField : Bool
  disableOutputConversionToSRGB : Bool
  allowSRGBInputs : Bool

/-- Accessor `numColorFragmentProcessors()`. -/
def GrProcessorSet.numColorFragmentProcessors (ps : GrProcessorSet) : Nat :=
  ps.colorFragmentProcessors.length

/-- Accessor `numCoverageFragmentProcessors()`. -/
def GrProcessorSet.numCoverageFragmentProcessors (ps : GrProcessorSet) : Nat :=
  ps.coverageFragmentProcessors.length

/-- The upstream analysis result: whether the input color is provably ignored,
the override color, and the (possibly negative, unclamped) color-processor
elimination count returned by
`getInputColorOverrideAndColorProcessorEliminationCount`. -/
structure GrAnalysis where
  isInputColorIgnored : Bool
  overrideColor : GrColor
  eliminationCount : Int
deriving DecidableEq, Repr

/-- The destination-texture descriptor for dst-read blending: an optional
texture id plus an integer offset pair. -/
structure DstTexture where
  texture : Option Nat
  offset : Int × Int
deriving DecidableEq, Repr

/-- Record `GrPipeline::InitArgs`: the initialization data the builder supplies. -/
structure InitArgs where
  flags : GrPipelineFlags
  appliedClip : Option GrAppliedClip
  processors : GrProcessorSet
  userStencil : GrUserStencilSettings
  drawFace : GrDrawFace
  caps : GrCaps
  renderTarget : GrRenderTarget
  inputColor : GrColor
  inputCoverage : GrCoverage
  analysis : Option GrAnalysis
  dstTexture : DstTexture

/-- The pipeline state object.  All fields mirror the `GrPipeline` data
members; `fNumColorProcessors` is an `int` in the source and can in principle
go negative, so it is an `Int` here. -/
structure GrPipeline where
  fRenderTarget : GrRenderTarget
  fScissorState : Nat
  fWindowRectsState : Nat
  fUserStencilSettings : GrUserStencilSettings
  fDrawFace : GrDrawFace
  fFlags : GrPipelineFlags
  fXferProcessor : Option GrXferProcessor
  fFragmentProcessors : List GrFragmentProcessor
  fNumColorProcessors : Int
  fDstTexture : Option Nat
  fDstTextureOffset : Int × Int

/-- Factory `GrPorterDuffXPFactory::CreateSrcOverXferProcessor` lives outside this
translation unit; theorems quantify over any such function.  It may return
`none` to signal that fixed-function hardware blending suffices. -/
abbrev SrcOverFactory := GrCaps → GrColor → GrCoverage → Bool → Option GrXferProcessor

/-- Factory `GrPorterDuffXPFactory::CreateNoCoverageXP(blendmode).get()`, used by the
convenience constructor; external, so passed as a parameter. -/
abbrev NoCoverageFactory := SkBlendMode → Option GrXferProcessor

/-- The number of leading color fragment processors `init` eliminates
(lines 81–93): zero without an analysis; otherwise the analysis count clamped
to ≥ 0 (`SkTMax(colorFPsToEliminate, 0)`), overridden to the full color count
when the analysis reports the input color ignored. -/
def colorFPsToEliminate (analysis : Option GrAnalysis) (ps : GrProcessorSet) : Int :=
  match analysis with
  | none => 0
  | some an =>
    let c := max an.eliminationCount 0
    if an.isInputColorIgnored then (ps.numColorFragmentProcessors : Int) else c

/-- Function `GrPipeline::init(const InitArgs&)`, lines 21–120.  `srcOver` stands for
the external `GrPorterDuffXPFactory::CreateSrcOverXferProcessor`. -/
def GrPipeline.init (srcOver : SrcOverFactory) (args : InitArgs) : GrPipeline :=
  -- fFlags = args.fFlags; clip ORs in kHasStencilClip_Flag
  let f1 := args.flags
  let f2 := match args.appliedClip with
    | some clip => if clip.hasStencilClip then { f1 with hasStencilClip := true } else f1
    | none => f1
  let scissor := match args.appliedClip with
    | some clip => clip.scissorState
    | none => 0
  let windowRects := match args.appliedClip with
    | some clip => clip.windowRectsState
    | none => 0
  let f3 := if args.processors.usesDistanceVectorField then
      { f2 with usesDistanceVectorField := true } else f2
  let f4 := if args.processors.disableOutputConversionToSRGB then
      { f3 with disableOutputConversionToSRGB := true } else f3
  let f5 := if args.processors.allowSRGBInputs then
      { f4 with allowSRGBInputs := true } else f4
  -- kStencilEnabled_Flag from fUserStencil->isDisabled(fFlags & kHasStencilClip)
  let f6 := if !(args.userStencil.isDisabled f5.hasStencilClip) then
      { f5 with stencilEnabled := true } else f5
  let isHWAA := args.flags.hwAntialias
  let hasMixedSamples :=
    args.renderTarget.mixedSampled && (isHWAA || f6.stencilEnabled)
  let xferProcessor : Option GrXferProcessor :=
    match args.processors.xpFactory with
    | some fac =>
        some (fac.createXferProcessor args.inputColor args.inputCoverage
          hasMixedSamples args.caps)
    | none => srcOver args.caps args.inputColor args.inputCoverage hasMixedSamples
  let dstTex := args.dstTexture.texture
  let dstOff := match args.dstTexture.texture with
    | some _ => args.dstTexture.offset
    | none => (0, 0)
  let elim := colorFPsToEliminate args.analysis args.processors
  let clipFPs : List GrFragmentProcessor := match args.appliedClip with
    | some clip => match clip.clipCoverageFragmentProcessor with
      | some fp => [fp]
      | none => []
    | none => []
  { fRenderTarget := args.renderTarget
    fScissorState := scissor
    fWindowRectsState := windowRects
    fUserStencilSettings := args.userStencil
    fDrawFace := args.drawFace
    fFlags := f6
    fXferProcessor := xferProcessor
    fFragmentProcessors :=
      args.processors.colorFragmentProcessors.drop elim.toNat ++
        args.processors.coverageFragmentProcessors ++ clipFPs
    fNumColorProcessors := (args.processors.numColorFragmentProcessors : Int) - elim
    fDstTexture := dstTex
    fDstTextureOffset := dstOff }

/-- The state of a render target's last (pending) op list: the textures
registered through `addDependency`, in call order. -/
structure RTState where
  rt : GrRenderTarget
  lastOpList : List Nat
deriving DecidableEq, Repr

/-- Call `GrRenderTargetOpList::addDependency(texture)`. -/
def addDependency (ops : List Nat) (tex : Nat) : List Nat :=
  ops ++ [tex]

/-- Helper `add_dependencies_for_processor` (lines 122–128): registers every
texture the processor's samplers bind, in sampler order. -/
def add_dependencies_for_processor (proc : GrFragmentProcessor)
    (rts : RTState) : RTState :=
  { rts with lastOpList := proc.textures.foldl addDependency rts.lastOpList }

/-- Method `GrPipeline::addDependenciesTo(GrRenderTarget*)` (lines 130–139): one
registration pass per fragment processor in sequence order, then the
destination texture if bound. -/
def GrPipeline.addDependenciesTo (p : GrPipeline) (rts : RTState) : RTState :=
  let afterFPs := p.fFragmentProcessors.foldl
    (fun s proc => add_dependencies_for_processor proc s) rts
  match p.fDstTexture with
  | some t => { afterFPs with lastOpList := addDependency afterFPs.lastOpList t }
  | none => afterFPs

/-- The world visible to `addDependenciesTo`: the (const) pipeline receiver
and the mutable render-target/op-list state.  The method is `const` in the
source; threading the receiver through makes that frame condition a provable
statement. -/
structure World where
  pipeline : GrPipeline
  target : RTState

/-- Running `pipeline.addDependenciesTo(rt)` on a world. -/
def World.runAddDependencies (w : World) : World :=
  { w with target := w.pipeline.addDependenciesTo w.target }

/-- The convenience constructor `GrPipeline(GrRenderTarget*, SkBlendMode)`
(lines 141–151).  `noCoverage` stands for the external
`GrPorterDuffXPFactory::CreateNoCoverageXP`. -/
def GrPipeline.mkSimple (noCoverage : NoCoverageFactory)
    (rt : GrRenderTarget) (blendmode : SkBlendMode) : GrPipeline :=
  { fRenderTarget := rt
    fScissorState := 0
    fWindowRectsState := 0
    fUserStencilSettings := GrUserStencilSettings.kUnused
    fDrawFace := GrDrawFace.both
    fFlags := {}
    fXferProcessor := noCoverage blendmode
    fFragmentProcessors := []
    fNumColorProcessors := 0
    fDstTexture := none
    fDstTextureOffset := (0, 0) }

/-- Modelled from the spec: `GrPipeline.h`'s `getXferProcessor` accessor is
outside this translation unit; per the spec the transfer check in `AreEqual`
compares the transfer processors by value when either side has one, so
absence compares equal only to absence. -/
def xferEqualOpt : Option GrXferProcessor → Option GrXferProcessor → Bool
  | some x, some y => x.isEqual y
  | none, none => true
  | _, _ => false

/-- The index-wise fragment-processor comparison loop of `AreEqual`
(lines 176–180); the mismatched-length cases are unreachable there because
the counts were compared first. -/
def fpPairsEqual : List GrFragmentProcessor → List GrFragmentProcessor → Bool
  | [], [] => true
  | x :: xs, y :: ys => x.isEqual y && fpPairsEqual xs ys
  | _, _ => false

/-- Function `GrPipeline::AreEqual` (lines 155–182). -/
def GrPipeline.AreEqual (a b : GrPipeline) : Bool :=
  if a.fRenderTarget.rtId ≠ b.fRenderTarget.rtId ∨
      a.fFragmentProcessors.length ≠ b.fFragmentProcessors.length ∨
      a.fNumColorProcessors ≠ b.fNumColorProcessors ∨
      a.fScissorState ≠ b.fScissorState ∨
      a.fWindowRectsState ≠ b.fWindowRectsState ∨
      a.fFlags ≠ b.fFlags ∨
      a.fUserStencilSettings.ussId ≠ b.fUserStencilSettings.ussId ∨
      a.fDrawFace ≠ b.fDrawFace then
    false
  else if (a.fXferProcessor.isSome || b.fXferProcessor.isSome) &&
      !(xferEqualOpt a.fXferProcessor b.fXferProcessor) then
    false
  else
    fpPairsEqual a.fFragmentProcessors b.fFragmentProcessors

/-- The stencil-clip bit the pipeline ends up with: the bit already present in
the requested flags, OR'd with the applied clip's `hasStencilClip()` when a
clip is supplied (line 33–35). -/
def stencilClipBit (args : InitArgs) : Bool :=
  args.flags.hasStencilClip ||
    (match args.appliedClip with
     | some clip => clip.hasStencilClip
     | none => false)

/-- Spec-side characterization of `AreEqual` (§4.4 of the spec): equality of
render-target identity, processor counts, scissor/window states, flag
pattern, stencil-settings identity and draw-face, plus value equality of the
transfer processors when either side has one and index-wise value equality of
the fragment processors. -/
def PipelineEqSpec (a b : GrPipeline) : Prop :=
  a.fRenderTarget.rtId = b.fRenderTarget.rtId ∧
  a.fFragmentProcessors.length = b.fFragmentProcessors.length ∧
  a.fNumColorProcessors = b.fNumColorProcessors ∧
  a.fScissorState = b.fScissorState ∧
  a.fWindowRectsState = b.fWindowRectsState ∧
  a.fFlags = b.fFlags ∧
  a.fUserStencilSettings.ussId = b.fUserStencilSettings.ussId ∧
  a.fDrawFace = b.fDrawFace ∧
  ((a.fXferProcessor.isSome = true ∨ b.fXferProcessor.isSome = true) →
    xferEqualOpt a.fXferProcessor b.fXferProcessor = true) ∧
  List.Forall₂ (fun x y => GrFragmentProcessor.isEqual x y = true)
    a.fFragmentProcessors b.fFragmentProcessors

/-- The full sequence of textures a pipeline registers during dependency
registration: every processor's sampled textures in sequence order, then the
destination texture when bound. -/
def pipelineRegistrations (p : GrPipeline) : List Nat :=
  (p.fFragmentProcessors.map GrFragmentProcessor.textures).flatten ++
    (match p.fDstTexture with
     | some t => [t]
     | none => [])

/-! Concrete fixtures used by the witness theorems. -/

/-- A src-over factory that always signals fixed-function blending. -/
def srcOverNone : SrcOverFactory := fun _ _ _ _ => none

/-- Sample color fragment processor. -/
def fpA : GrFragmentProcessor := { fpId := 1, fpValue := 10, textures := [100, 101] }

/-- Sample color fragment processor. -/
def fpB : GrFragmentProcessor := { fpId := 2, fpValue := 20, textures := [102] }

/-- Sample coverage fragment processor. -/
def fpC : GrFragmentProcessor := { fpId := 3, fpValue := 30, textures := [] }

/-- Sample clip-coverage fragment processor. -/
def fpClip : GrFragmentProcessor := { fpId := 4, fpValue := 40, textures := [103] }

/-- Sample processor set: two color processors, one coverage processor, no
custom transfer-processor factory. -/
def psABC : GrProcessorSet :=
  { colorFragmentProcessors := [fpA, fpB]
    coverageFragmentProcessors := [fpC]
    xpFactory := none
    usesDistanceVectorField := false
    disableOutputConversionToSRGB := false
    allowSRGBInputs := false }

/-- Sample applied clip with a stencil constraint and a coverage processor. -/
def clip1 : GrAppliedClip :=
  { scissorState := 7
    windowRectsState := 9
    hasStencilClip := true
    clipCoverageFragmentProcessor := some fpClip }

/-- Sample user stencil settings: enabled exactly when a stencil clip is
present. -/
def uss1 : GrUserStencilSettings :=
  { ussId := 1, disabledWithoutStencilClip := true, disabledWithStencilClip := false }

/-- Sample mixed-sampled render target. -/
def rt1 : GrRenderTarget := { rtId := 5, mixedSampled := true }

/-- Sample analysis: input color used, one color processor eliminable. -/
def an1 : GrAnalysis :=
  { isInputColorIgnored := false, overrideColor := 0, eliminationCount := 1 }

/-- Sample initialization record: clip with stencil constraint and coverage
processor, analysis eliminating one of two color processors, a destination
texture, default requested flags. -/
def args1 : InitArgs :=
  { flags := {}
    appliedClip := some clip1
    processors := psABC
    userStencil := uss1
    drawFace := GrDrawFace.both
    caps := 0
    renderTarget := rt1
    inputColor := 1
    inputCoverage := 2
    analysis := some an1
    dstTexture := { texture := some 200, offset := (3, 4) } }

/-- Sample analysis reporting the input color ignored. -/
def anIgnored : GrAnalysis :=
  { isInputColorIgnored := true, overrideColor := 0, eliminationCount := 0 }

/-- Sample initialization record whose analysis reports the input color
ignored. -/
def argsIgnored : InitArgs := { args1 with analysis := some anIgnored }

/-- Sample custom transfer-processor factory recording its arguments in the
produced processor's identity. -/
def xpfac1 : GrXPFactory :=
  { createXferProcessor := fun c cov hms caps =>
      { xpId := c + cov + caps + (if hms then 1 else 0), xpValue := 7 } }

/-- Sample initialization record carrying the custom factory `xpfac1`. -/
def argsFac : InitArgs :=
  { args1 with processors := { psABC with xpFactory := some xpfac1 } }

theorem fpIsEqual_comm (a b : GrFragmentProcessor) : a.isEqual b = b.isEqual a := by
  unfold GrFragmentProcessor.isEqual
  by_cases h1 : a.fpValue = b.fpValue <;> by_cases h2 : a.textures = b.textures <;>
    simp [h1, h2, eq_comm]

theorem fpIsEqual_refl (a : GrFragmentProcessor) : a.isEqual a = true := by
  simp [GrFragmentProcessor.isEqual]

theorem xpIsEqual_comm (a b : GrXferProcessor) : a.isEqual b = b.isEqual a := by
  unfold GrXferProcessor.isEqual
  by_cases h : a.xpValue = b.xpValue <;> simp [h, eq_comm]

theorem xferEqualOpt_comm (a b : Option GrXferProcessor) :
    xferEqualOpt a b = xferEqualOpt b a := by
  cases a <;> cases b <;> simp [xferEqualOpt, xpIsEqual_comm]

theorem xferEqualOpt_refl (a : Option GrXferProcessor) : xferEqualOpt a a = true := by
  cases a <;> simp [xferEqualOpt, GrXferProcessor.isEqual]

theorem fpPairsEqual_iff : ∀ xs ys : List GrFragmentProcessor,
    fpPairsEqual xs ys = true ↔
      List.Forall₂ (fun x y => GrFragmentProcessor.isEqual x y = true) xs ys
  | [], [] => by simp [fpPairsEqual]
  | [], _ :: _ => by simp [fpPairsEqual]
  | _ :: _, [] => by simp [fpPairsEqual]
  | x :: xs, y :: ys => by
      simp [fpPairsEqual, List.forall₂_cons, Bool.and_eq_true, fpPairsEqual_iff xs ys]

theorem foldl_addDependency (texs ops : List Nat) :
    texs.foldl addDependency ops = ops ++ texs := by
  induction texs generalizing ops with
  | nil => simp
  | cons t ts ih => simp [addDependency, ih]

theorem foldl_add_deps (fps : List GrFragmentProcessor) (rts : RTState) :
    fps.foldl (fun s proc => add_dependencies_for_processor proc s) rts =
      { rts with lastOpList :=
          rts.lastOpList ++ (fps.map GrFragmentProcessor.textures).flatten } := by
  induction fps generalizing rts with
  | nil => simp
  | cons fp fps ih =>
      rw [List.foldl_cons, ih]
      simp [add_dependencies_for_processor, foldl_addDependency, List.append_assoc]

theorem addDependenciesTo_opList (p : GrPipeline) (rts : RTState) :
    (p.addDependenciesTo rts).lastOpList = rts.lastOpList ++ pipelineRegistrations p := by
  unfold GrPipeline.addDependenciesTo pipelineRegistrations
  cases p.fDstTexture <;> simp [foldl_add_deps, addDependency]

theorem addDependenciesTo_rt (p : GrPipeline) (rts : RTState) :
    (p.addDependenciesTo rts).rt = rts.rt := by
  unfold GrPipeline.addDependenciesTo
  cases p.fDstTexture <;> simp [foldl_add_deps]

theorem initFlags_hasStencilClip (srcOver : SrcOverFactory) (args : InitArgs) :
    (GrPipeline.init srcOver args).fFlags.hasStencilClip = stencilClipBit args := by
  unfold GrPipeline.init stencilClipBit
  rcases hc : args.appliedClip with _ | clip <;>
    cases hsc : args.userStencil.isDisabled true <;>
    simp [hc, hsc, apply_ite GrPipelineFlags.hasStencilClip] <;>
    cases hb : clip.hasStencilClip <;>
    simp [hb, apply_ite GrPipelineFlags.hasStencilClip]

theorem initFlags_stencilEnabled (srcOver : SrcOverFactory) (args : InitArgs) :
    (GrPipeline.init srcOver args).fFlags.stencilEnabled =
      (args.flags.stencilEnabled ||
        !(args.userStencil.isDisabled (stencilClipBit args))) := by
  unfold GrPipeline.init stencilClipBit
  rcases hc : args.appliedClip with _ | clip <;>
    simp [hc, apply_ite GrPipelineFlags.stencilEnabled,
      apply_ite GrPipelineFlags.hasStencilClip]
  · cases hd : args.userStencil.isDisabled args.flags.hasStencilClip <;> simp [hd]
  · cases hb : clip.hasStencilClip <;>
      simp [hb, apply_ite GrPipelineFlags.stencilEnabled,
        apply_ite GrPipelineFlags.hasStencilClip] <;>
      cases hd2 : args.userStencil.isDisabled true <;>
      cases hd3 : args.userStencil.isDisabled args.flags.hasStencilClip <;>
      simp [hd2, hd3]

theorem init_scissorState_eval (srcOver : SrcOverFactory) (args : InitArgs) :
    (GrPipeline.init srcOver args).fScissorState =
      (match args.appliedClip with
       | some clip => clip.scissorState
       | none => 0) := rfl

theorem init_windowRectsState_eval (srcOver : SrcOverFactory) (args : InitArgs) :
    (GrPipeline.init srcOver args).fWindowRectsState =
      (match args.appliedClip with
       | some clip => clip.windowRectsState
       | none => 0) := rfl

theorem init_numColor_eval (srcOver : SrcOverFactory) (args : InitArgs) :
    (GrPipeline.init srcOver args).fNumColorProcessors =
      (args.processors.numColorFragmentProcessors : Int) -
        colorFPsToEliminate args.analysis args.processors := rfl

theorem init_fps_eval (srcOver : SrcOverFactory) (args : InitArgs) :
    (GrPipeline.init srcOver args).fFragmentProcessors =
      args.processors.colorFragmentProcessors.drop
        (colorFPsToEliminate args.analysis args.processors).toNat ++
      args.processors.coverageFragmentProcessors ++
      (match args.appliedClip with
       | some clip =>
         (match clip.clipCoverageFragmentProcessor with
          | some fp => [fp]
          | none => [])
       | none => []) := rfl

theorem areEqual_true_iff (a b : GrPipeline) :
    GrPipeline.AreEqual a b = true ↔ PipelineEqSpec a b := by
  unfold GrPipeline.AreEqual PipelineEqSpec
  split_ifs with h1 h2
  · refine iff_of_false (by simp) ?_
    rintro ⟨hrt, hlen, hnum, hsc, hwin, hfl, huss, hdf, -, -⟩
    rcases h1 with h | h | h | h | h | h | h | h
    · exact h hrt
    · exact h hlen
    · exact h hnum
    · exact h hsc
    · exact h hwin
    · exact h hfl
    · exact h huss
    · exact h hdf
  · refine iff_of_false (by simp) ?_
    rintro ⟨-, -, -, -, -, -, -, -, hxp, -⟩
    rw [Bool.and_eq_true, Bool.or_eq_true] at h2
    obtain ⟨hor, hne⟩ := h2
    rw [hxp hor] at hne
    simp at hne
  · constructor
    · intro hfp
      push_neg at h1
      obtain ⟨hrt, hlen, hnum, hsc, hwin, hfl, huss, hdf⟩ := h1
      refine ⟨hrt, hlen, hnum, hsc, hwin, hfl, huss, hdf, ?_,
        (fpPairsEqual_iff _ _).mp hfp⟩
      intro hor
      cases hx : xferEqualOpt a.fXferProcessor b.fXferProcessor
      · exact absurd
          (by rw [Bool.and_eq_true, Bool.or_eq_true]
              exact ⟨hor, by rw [hx]; rfl⟩) h2
      · rfl
    · rintro ⟨-, -, -, -, -, -, -, -, -, hfa⟩
      exact (fpPairsEqual_iff _ _).mpr hfa

theorem pipelineEqSpec_symm {a b : GrPipeline} (h : PipelineEqSpec a b) :
    PipelineEqSpec b a := by
  obtain ⟨hrt, hlen, hnum, hsc, hwin, hfl, huss, hdf, hxp, hfa⟩ := h
  refine ⟨hrt.symm, hlen.symm, hnum.symm, hsc.symm, hwin.symm, hfl.symm,
    huss.symm, hdf.symm, ?_, ?_⟩
  · intro hor
    rw [xferEqualOpt_comm]
    exact hxp hor.symm
  · exact (hfa.imp (fun x y hxy =>
      show GrFragmentProcessor.isEqual y x = true by
        rw [fpIsEqual_comm]; exact hxy)).flip

theorem areEqual_refl_val (p : GrPipeline) : GrPipeline.AreEqual p p = true := by
  rw [areEqual_true_iff]
  refine ⟨rfl, rfl, rfl, rfl, rfl, rfl, rfl, rfl, fun _ => xferEqualOpt_refl _, ?_⟩
  exact List.forall₂_same.mpr (fun x _ => fpIsEqual_refl x)

theorem areEqual_comm (a b : GrPipeline) :
    GrPipeline.AreEqual a b = GrPipeline.AreEqual b a := by
  cases hab : GrPipeline.AreEqual a b <;> cases hba : GrPipeline.AreEqual b a <;>
    try rfl
  · exact absurd
      ((areEqual_true_iff a b).mpr (pipelineEqSpec_symm ((areEqual_true_iff b a).mp hba)))
      (by rw [hab]; simp)
  · exact absurd
      ((areEqual_true_iff b a).mpr (pipelineEqSpec_symm ((areEqual_true_iff a b).mp hab)))
      (by rw [hba]; simp)

/-- C1: For every valid initialization record, the pipeline's resulting
color-processor count equals the processor set's original color-processor
count minus the analysis's elimination count clamped to ≥ 0 (zero
elimination when no analysis result is supplied), and equals 0 whenever the
supplied analysis reports the input color ignored. -/
theorem init_colorProcessorCount (srcOver : SrcOverFactory) (args : InitArgs) :
    (args.analysis = none →
      (GrPipeline.init srcOver args).fNumColorProcessors =
        (args.processors.numColorFragmentProcessors : Int)) ∧
    (∀ an, args.analysis = some an → an.isInputColorIgnored = false →
      (GrPipeline.init srcOver args).fNumColorProcessors =
        (args.processors.numColorFragmentProcessors : Int) -
          max an.eliminationCount 0) ∧
    (∀ an, args.analysis = some an → an.isInputColorIgnored = true →
      (GrPipeline.init srcOver args).fNumColorProcessors = 0) := by
  refine ⟨?_, ?_, ?_⟩
  · intro h
    rw [init_numColor_eval]
    simp [colorFPsToEliminate, h]
  · intro an h hig
    rw [init_numColor_eval]
    simp [colorFPsToEliminate, h, hig]
  · intro an h hig
    rw [init_numColor_eval]
    simp [colorFPsToEliminate, h, hig]

/-- Witness for C1: on the concrete record `argsIgnored`, whose analysis
reports the input color ignored, every color processor is eliminated. -/
theorem init_colorProcessorCount_w :
    (GrPipeline.init srcOverNone argsIgnored).fNumColorProcessors = 0 :=
  (init_colorProcessorCount srcOverNone argsIgnored).2.2 anIgnored rfl rfl

/-- C2: For every pipeline produced by `init` on a valid record (elimination
count within range), the fragment-processor sequence is the surviving color
processors from the elimination index onward, then all coverage processors,
then the clip's coverage processor when supplied; its length is
(colorProcessors − eliminated) + coverageProcessors + (1 if a clip coverage
processor is present). -/
theorem init_fragmentProcessorSequence (srcOver : SrcOverFactory) (args : InitArgs)
    (h : (colorFPsToEliminate args.analysis args.processors).toNat ≤
      args.processors.numColorFragmentProcessors) :
    (GrPipeline.init srcOver args).fFragmentProcessors =
      args.processors.colorFragmentProcessors.drop
        (colorFPsToEliminate args.analysis args.processors).toNat ++
      args.processors.coverageFragmentProcessors ++
      (match args.appliedClip with
       | some clip =>
         (match clip.clipCoverageFragmentProcessor with
          | some fp => [fp]
          | none => [])
       | none => []) ∧
    (GrPipeline.init srcOver args).fFragmentProcessors.length =
      (args.processors.numColorFragmentProcessors -
        (colorFPsToEliminate args.analysis args.processors).toNat) +
      args.processors.numCoverageFragmentProcessors +
      (match args.appliedClip with
       | some clip => if clip.clipCoverageFragmentProcessor.isSome then 1 else 0
       | none => 0) := by
  constructor
  · exact init_fps_eval srcOver args
  · rw [init_fps_eval]
    rcases hc : args.appliedClip with _ | clip
    · simp [GrProcessorSet.numColorFragmentProcessors,
        GrProcessorSet.numCoverageFragmentProcessors]
    · rcases hfp : clip.clipCoverageFragmentProcessor with _ | fp <;>
        simp [GrProcessorSet.numColorFragmentProcessors,
          GrProcessorSet.numCoverageFragmentProcessors, hfp] <;>
        omega

/-- Witness for C2: on `args1` (two color processors, one eliminated, one
coverage processor, clip coverage processor present) the sequence is the
surviving color processor, the coverage processor, then the clip's. -/
theorem init_fragmentProcessorSequence_w :
    (GrPipeline.init srcOverNone args1).fFragmentProcessors = [fpB, fpC, fpClip] ∧
    (GrPipeline.init srcOverNone args1).fFragmentProcessors.length = 3 := by
  have h := init_fragmentProcessorSequence srcOverNone args1 (by decide)
  exact ⟨h.1.trans (by decide), h.2.trans (by decide)⟩

/-- C3: For every valid initialization record (one whose requested flags do
not pre-set the derived stencil bits), the stencil-enabled flag is set iff
`userStencil.isDisabled(stencilClipFlag)` is false, where the stencil-clip
flag reflects whether the applied clip contributed a stencil constraint. -/
theorem init_stencilEnabled_iff (srcOver : SrcOverFactory) (args : InitArgs)
    (h1 : args.flags.hasStencilClip = false)
    (h2 : args.flags.stencilEnabled = false) :
    ((GrPipeline.init srcOver args).fFlags.stencilEnabled = true ↔
      args.userStencil.isDisabled
        (match args.appliedClip with
         | some clip => clip.hasStencilClip
         | none => false) = false) := by
  rw [initFlags_stencilEnabled, h2]
  simp [stencilClipBit, h1]

/-- Witness for C3: on `args1` the clip contributes a stencil constraint and
`uss1` is enabled with a stencil clip, so the stencil-enabled flag is set. -/
theorem init_stencilEnabled_iff_w :
    (GrPipeline.init srcOverNone args1).fFlags.stencilEnabled = true :=
  (init_stencilEnabled_iff srcOverNone args1 rfl rfl).mpr (by decide)

/-- C4: `AreEqual` is symmetric (the modelled collaborator value-equality
predicates are symmetric), and reflexive by value: two pipelines built by
`init` from identical initialization records compare equal. -/
theorem areEqual_symm_and_reflByValue :
    (∀ a b : GrPipeline, GrPipeline.AreEqual a b = GrPipeline.AreEqual b a) ∧
    (∀ (srcOver : SrcOverFactory) (args : InitArgs),
      GrPipeline.AreEqual (GrPipeline.init srcOver args)
        (GrPipeline.init srcOver args) = true) :=
  ⟨areEqual_comm, fun _ _ => areEqual_refl_val _⟩

/-- C5: Dependency registration issues exactly (Σ textures per processor) +
(1 if a destination texture is bound) `addDependency` calls on the target's
pending op list, naming the processors' textures in sequence order and then
the destination texture. -/
theorem addDependenciesTo_calls (p : GrPipeline) (rts : RTState) :
    (p.addDependenciesTo rts).lastOpList =
      rts.lastOpList ++
        ((p.fFragmentProcessors.map GrFragmentProcessor.textures).flatten ++
          (match p.fDstTexture with
           | some t => [t]
           | none => [])) ∧
    (p.addDependenciesTo rts).lastOpList.length =
      rts.lastOpList.length +
        ((p.fFragmentProcessors.map fun proc => proc.textures.length).sum +
          (if p.fDstTexture.isSome then 1 else 0)) := by
  constructor
  · rw [addDependenciesTo_opList]; rfl
  · rw [addDependenciesTo_opList]
    unfold pipelineRegistrations
    rcases hd : p.fDstTexture with _ | t <;>
      simp [List.length_flatten, List.map_map] <;> rfl

/-- C6: The transfer-processor resolution's has-mixed-samples input is
(target mixed-sampled AND (hardware-AA requested OR pipeline stencil-enabled
flag set)); a custom factory, when supplied, is invoked with the input
color, coverage, has-mixed-samples and caps and yields a (non-null)
processor; otherwise the default src-over path decides, and may yield none
(fixed-function blending). -/
theorem init_xferProcessor_resolution (srcOver : SrcOverFactory) (args : InitArgs) :
    (∀ fac, args.processors.xpFactory = some fac →
      (GrPipeline.init srcOver args).fXferProcessor =
        some (fac.createXferProcessor args.inputColor args.inputCoverage
          (args.renderTarget.mixedSampled &&
            (args.flags.hwAntialias ||
              (GrPipeline.init srcOver args).fFlags.stencilEnabled))
          args.caps)) ∧
    (args.processors.xpFactory = none →
      (GrPipeline.init srcOver args).fXferProcessor =
        srcOver args.caps args.inputColor args.inputCoverage
          (args.renderTarget.mixedSampled &&
            (args.flags.hwAntialias ||
              (GrPipeline.init srcOver args).fFlags.stencilEnabled))) := by
  constructor
  · intro fac hfac
    show (match args.processors.xpFactory with
      | some fac =>
          some (fac.createXferProcessor args.inputColor args.inputCoverage
            (args.renderTarget.mixedSampled &&
              (args.flags.hwAntialias ||
                (GrPipeline.init srcOver args).fFlags.stencilEnabled))
            args.caps)
      | none =>
          srcOver args.caps args.inputColor args.inputCoverage
            (args.renderTarget.mixedSampled &&
              (args.flags.hwAntialias ||
                (GrPipeline.init srcOver args).fFlags.stencilEnabled))) = _
    rw [hfac]
  · intro hfac
    show (match args.processors.xpFactory with
      | some fac =>
          some (fac.createXferProcessor args.inputColor args.inputCoverage
            (args.renderTarget.mixedSampled &&
              (args.flags.hwAntialias ||
                (GrPipeline.init srcOver args).fFlags.stencilEnabled))
            args.caps)
      | none =>
          srcOver args.caps args.inputColor args.inputCoverage
            (args.renderTarget.mixedSampled &&
              (args.flags.hwAntialias ||
                (GrPipeline.init srcOver args).fFlags.stencilEnabled))) = _
    rw [hfac]

/-- Witness for C6: on `argsFac` the custom factory is invoked with input
color 1, coverage 2, has-mixed-samples true (mixed-sampled target, stencil
enabled) and caps 0, producing the recorded processor. -/
theorem init_xferProcessor_resolution_w :
    (GrPipeline.init srcOverNone argsFac).fXferProcessor =
      some { xpId := 4, xpValue := 7 } :=
  ((init_xferProcessor_resolution srcOverNone argsFac).1 xpfac1 rfl).trans (by decide)

/-- C7: With an applied clip, `init` copies its scissor and window-rects
states and sets the stencil-clip flag iff the clip has a stencil
constraint; without a clip all three keep their default values (for valid
records that do not pre-set the stencil-clip bit). -/
theorem init_clipState (srcOver : SrcOverFactory) (args : InitArgs)
    (hvalid : args.flags.hasStencilClip = false) :
    (∀ clip, args.appliedClip = some clip →
      (GrPipeline.init srcOver args).fScissorState = clip.scissorState ∧
      (GrPipeline.init srcOver args).fWindowRectsState = clip.windowRectsState ∧
      (GrPipeline.init srcOver args).fFlags.hasStencilClip = clip.hasStencilClip) ∧
    (args.appliedClip = none →
      (GrPipeline.init srcOver args).fScissorState = 0 ∧
      (GrPipeline.init srcOver args).fWindowRectsState = 0 ∧
      (GrPipeline.init srcOver args).fFlags.hasStencilClip = false) := by
  constructor
  · intro clip hclip
    refine ⟨?_, ?_, ?_⟩
    · rw [init_scissorState_eval, hclip]
    · rw [init_windowRectsState_eval, hclip]
    · rw [initFlags_hasStencilClip]
      simp [stencilClipBit, hclip, hvalid]
  · intro hclip
    refine ⟨?_, ?_, ?_⟩
    · rw [init_scissorState_eval, hclip]
    · rw [init_windowRectsState_eval, hclip]
    · rw [initFlags_hasStencilClip]
      simp [stencilClipBit, hclip, hvalid]

/-- Witness for C7: on `args1` the clip's scissor state 7 and stencil
constraint are copied into the pipeline. -/
theorem init_clipState_w :
    (GrPipeline.init srcOverNone args1).fScissorState = 7 ∧
    (GrPipeline.init srcOverNone args1).fFlags.hasStencilClip = true := by
  have h := (init_clipState srcOverNone args1 rfl).1 clip1 rfl
  exact ⟨h.1.trans (by decide), h.2.2.trans (by decide)⟩

/-- C8: `AreEqual` returns true iff the two pipelines agree on render-target
identity, fragment-processor count, color-processor count, scissor state,
window-rects state, flag pattern, user-stencil-settings identity and
draw-face, the transfer processors compare equal by value when either side
has one, and the fragment processors compare equal by value index-wise. -/
theorem areEqual_characterization (a b : GrPipeline) :
    GrPipeline.AreEqual a b = true ↔ PipelineEqSpec a b :=
  areEqual_true_iff a b

/-- C9: Dependency registration leaves the pipeline itself (and every one of
its fields) unchanged, leaves the target's identity unchanged, and its only
effect is to append the registrations to the target's pending op list. -/
theorem runAddDependencies_frame (w : World) :
    (w.runAddDependencies).pipeline = w.pipeline ∧
    (w.runAddDependencies).pipeline.fRenderTarget = w.pipeline.fRenderTarget ∧
    (w.runAddDependencies).pipeline.fFlags = w.pipeline.fFlags ∧
    (w.runAddDependencies).pipeline.fFragmentProcessors =
      w.pipeline.fFragmentProcessors ∧
    (w.runAddDependencies).pipeline.fXferProcessor = w.pipeline.fXferProcessor ∧
    (w.runAddDependencies).pipeline.fDstTexture = w.pipeline.fDstTexture ∧
    (w.runAddDependencies).pipeline.fDstTextureOffset =
      w.pipeline.fDstTextureOffset ∧
    (w.runAddDependencies).pipeline.fScissorState = w.pipeline.fScissorState ∧
    (w.runAddDependencies).pipeline.fWindowRectsState =
      w.pipeline.fWindowRectsState ∧
    (w.runAddDependencies).pipeline.fUserStencilSettings =
      w.pipeline.fUserStencilSettings ∧
    (w.runAddDependencies).pipeline.fDrawFace = w.pipeline.fDrawFace ∧
    (w.runAddDependencies).pipeline.fNumColorProcessors =
      w.pipeline.fNumColorProcessors ∧
    (w.runAddDependencies).target.rt = w.target.rt ∧
    (w.runAddDependencies).target.lastOpList =
      w.target.lastOpList ++ pipelineRegistrations w.pipeline :=
  ⟨rfl, rfl, rfl, rfl, rfl, rfl, rfl, rfl, rfl, rfl, rfl, rfl,
    addDependenciesTo_rt _ _, addDependenciesTo_opList _ _⟩

/-- C10: The convenience constructor yields a pipeline with no fragment
processors, zero color processors, default scissor and window-rects state,
the canonical unused stencil settings (stencil-enabled unset), draw-face
both, empty flags, no destination texture, and the transfer processor the
no-coverage factory produced for the blend mode. -/
theorem simplePipeline_fields (noCoverage : NoCoverageFactory)
    (rt : GrRenderTarget) (blendmode : SkBlendMode) :
    (GrPipeline.mkSimple noCoverage rt blendmode).fFragmentProcessors = [] ∧
    (GrPipeline.mkSimple noCoverage rt blendmode).fNumColorProcessors = 0 ∧
    (GrPipeline.mkSimple noCoverage rt blendmode).fScissorState = 0 ∧
    (GrPipeline.mkSimple noCoverage rt blendmode).fWindowRectsState = 0 ∧
    (GrPipeline.mkSimple noCoverage rt blendmode).fUserStencilSettings =
      GrUserStencilSettings.kUnused ∧
    (GrPipeline.mkSimple noCoverage rt blendmode).fFlags = {} ∧
    (GrPipeline.mkSimple noCoverage rt blendmode).fFlags.stencilEnabled = false ∧
    (GrPipeline.mkSimple noCoverage rt blendmode).fDrawFace = GrDrawFace.both ∧
    (GrPipeline.mkSimple noCoverage rt blendmode).fDstTexture = none ∧
    (GrPipeline.mkSimple noCoverage rt blendmode).fXferProcessor =
      noCoverage blendmode ∧
    (GrPipeline.mkSimple noCoverage rt blendmode).fRenderTarget = rt :=
  ⟨rfl, rfl, rfl, rfl, rfl, rfl, rfl, rfl, rfl, rfl, rfl⟩
